import Mathlib

/-!
Verification of the TTS service core (model lifecycle, request dispatch,
voice catalog, audio encoding, shutdown coordination) of the
joshsanz/ebook-speaker repository, shallowly embedded from
`src/tts/main.py`, `src/tts/voices.py` and `src/tts/supertonic_wrapper.py`.
-/

/-! ## Voice catalog (`src/tts/voices.py`) -/

/-- A voice descriptor, mirroring the dicts in `voices.py`
(`{"name": ..., "language": ..., "gender": ..., "description": ...}`). -/
structure Voice where
  name : String
  language : String
  gender : String
  description : String
deriving DecidableEq, Repr

/-- `SUPERTONIC_VOICES` from `voices.py`: 10 voices, 5 male and 5 female. -/
def SUPERTONIC_VOICES : List Voice := [
  ⟨"M1", "en", "male", "English Male M1"⟩,
  ⟨"M2", "en", "male", "English Male M2"⟩,
  ⟨"M3", "en", "male", "English Male M3"⟩,
  ⟨"M4", "en", "male", "English Male M4"⟩,
  ⟨"M5", "en", "male", "English Male M5"⟩,
  ⟨"F1", "en", "female", "English Female F1"⟩,
  ⟨"F2", "en", "female", "English Female F2"⟩,
  ⟨"F3", "en", "female", "English Female F3"⟩,
  ⟨"F4", "en", "female", "English Female F4"⟩,
  ⟨"F5", "en", "female", "English Female F5"⟩]

/-- `KOKORO_VOICES` from `voices.py`: the full multilingual static table. -/
def KOKORO_VOICES : List Voice := [
  ⟨"af_heart", "en", "female", "American Female Heart"⟩,
  ⟨"af_bella", "en", "female", "American Female Bella"⟩,
  ⟨"af_nicole", "en", "female", "American Female Nicole"⟩,
  ⟨"af_sarah", "en", "female", "American Female Sarah"⟩,
  ⟨"af_amber", "en", "female", "American Female Amber"⟩,
  ⟨"am_adam", "en", "male", "American Male Adam"⟩,
  ⟨"am_michael", "en", "male", "American Male Michael"⟩,
  ⟨"am_john", "en", "male", "American Male John"⟩,
  ⟨"bf_emma", "en", "female", "British Female Emma"⟩,
  ⟨"bf_olivia", "en", "female", "British Female Olivia"⟩,
  ⟨"bm_lewis", "en", "male", "British Male Lewis"⟩,
  ⟨"bm_james", "en", "male", "British Male James"⟩,
  ⟨"jf_nanako", "ja", "female", "Japanese Female Nanako"⟩,
  ⟨"jf_akari", "ja", "female", "Japanese Female Akari"⟩,
  ⟨"jm_hayato", "ja", "male", "Japanese Male Hayato"⟩,
  ⟨"jm_daichi", "ja", "male", "Japanese Male Daichi"⟩,
  ⟨"kf_minji", "ko", "female", "Korean Female Minji"⟩,
  ⟨"kf_soyeon", "ko", "female", "Korean Female Soyeon"⟩,
  ⟨"km_junho", "ko", "male", "Korean Male Junho"⟩,
  ⟨"km_sung", "ko", "male", "Korean Male Sung"⟩,
  ⟨"zf_xiaoxiao", "zh", "female", "Chinese Female Xiaoxiao"⟩,
  ⟨"zf_xiaowan", "zh", "female", "Chinese Female Xiaowan"⟩,
  ⟨"zm_xiaoyu", "zh", "male", "Chinese Male Xiaoyu"⟩,
  ⟨"zm_yunxi", "zh", "male", "Chinese Male Yunxi"⟩,
  ⟨"ef_carmen", "es", "female", "Spanish Female Carmen"⟩,
  ⟨"ef_rosa", "es", "female", "Spanish Female Rosa"⟩,
  ⟨"em_carlos", "es", "male", "Spanish Male Carlos"⟩,
  ⟨"em_juan", "es", "male", "Spanish Male Juan"⟩,
  ⟨"ff_léa", "fr", "female", "French Female Léa"⟩,
  ⟨"ff_marie", "fr", "female", "French Female Marie"⟩,
  ⟨"fm_bruno", "fr", "male", "French Male Bruno"⟩,
  ⟨"fm_jean", "fr", "male", "French Male Jean"⟩,
  ⟨"gf_anna", "de", "female", "German Female Anna"⟩,
  ⟨"gf_birgitta", "de", "female", "German Female Birgitta"⟩,
  ⟨"gm_lars", "de", "male", "German Male Lars"⟩,
  ⟨"gm_markus", "de", "male", "German Male Markus"⟩,
  ⟨"if_giulia", "it", "female", "Italian Female Giulia"⟩,
  ⟨"if_paola", "it", "female", "Italian Female Paola"⟩,
  ⟨"im_marco", "it", "male", "Italian Male Marco"⟩,
  ⟨"im_stefano", "it", "male", "Italian Male Stefano"⟩,
  ⟨"pf_helena", "pt", "female", "Portuguese Female Helena"⟩,
  ⟨"pf_fernanda", "pt", "female", "Portuguese Female Fernanda"⟩,
  ⟨"pm_paulo", "pt", "male", "Portuguese Male Paulo"⟩,
  ⟨"pm_sergio", "pt", "male", "Portuguese Male Sergio"⟩]

/-- `get_voices_by_model(model)` from `voices.py`: selects a catalog by
model name, empty list for any other string. Total, never raises. -/
def get_voices_by_model (model : String) : List Voice :=
  if model = "supertonic" then SUPERTONIC_VOICES
  else if model = "kokoro" then KOKORO_VOICES
  else []

/-- `get_default_voice(model)` from `voices.py`. -/
def get_default_voice (model : String) : String :=
  if model = "supertonic" then "F1" else "af_heart"

/-- `get_voice_names(model)` from `voices.py`. -/
def get_voice_names (model : String) : List String :=
  (get_voices_by_model model).map (fun v => v.name)

/-- `is_valid_voice(voice_name, model)` from `voices.py`: membership in the
static name list. Total, never raises. -/
def is_valid_voice (voice_name model : String) : Bool :=
  (get_voice_names model).contains voice_name

/-! ## Supertonic adapter (`src/tts/supertonic_wrapper.py`) -/

/-- `SupertonicTTS.VOICE_LIST`: the adapter's own fixed ten-entry voice
list, `[f"M{i}" for i in range(1, 6)] + [f"F{i}" for i in range(1, 6)]`. -/
def VOICE_LIST : List String :=
  ["M1", "M2", "M3", "M4", "M5", "F1", "F2", "F3", "F4", "F5"]

/-- Error outcomes of `SupertonicTTS.get_voice_style`: `ValueError` for a
name outside `VOICE_LIST` (the spec's `UnknownVoice`), `FileNotFoundError`
for a missing style file, `RuntimeError` for a failed load. -/
inductive StyleErr where
  | UnknownVoice
  | FileNotFound
  | LoadFailure
deriving DecidableEq, Repr

/-- `SupertonicTTS.get_voice_style(voice_name)`. Voice styles are opaque
handles (modelled as `Nat`); the filesystem and the style loader are
oracles `hasFile` and `loadStyle` (`loadStyle v = none` models
`load_voice_style` raising). Returns the style together with the updated
`_voice_style_cache` association list. -/
def get_voice_style (hasFile : String → Bool) (loadStyle : String → Option Nat)
    (cache : List (String × Nat)) (voice_name : String) :
    Except StyleErr (Nat × List (String × Nat)) :=
  if ¬ VOICE_LIST.contains voice_name then
    .error .UnknownVoice
  else
    match cache.lookup voice_name with
    | some style => .ok (style, cache)
    | none =>
      if ¬ hasFile voice_name then
        .error .FileNotFound
      else
        match loadStyle voice_name with
        | some style => .ok (style, (voice_name, style) :: cache)
        | none => .error .LoadFailure

/-! ## Model registry (`get_kokoro_model` / `get_supertonic_model`),
sequential view.

Construction attempts are an oracle `ctor : Nat → Option Nat` giving the
outcome of the k-th construction attempt (`none` = the construction body
raised, e.g. `find_model_files` or `SupertonicTTS(...)` failed; `some e` =
a fully built engine `e`). The Python re-raises the exception without
assigning the global, so on failure the slot stays empty. -/

/-- One sequential call to `get_kokoro_model`/`get_supertonic_model`:
given the current slot and the number of construction attempts so far,
return (result, new slot, new attempt count). -/
def getEngineSeq (ctor : Nat → Option Nat) (slot : Option Nat) (attempts : Nat) :
    Except Unit Nat × Option Nat × Nat :=
  match slot with
  | some e => (.ok e, some e, attempts)
  | none =>
    match ctor attempts with
    | some e => (.ok e, some e, attempts + 1)
    | none => (.error (), none, attempts + 1)

/-! ## Request dispatcher (`text_to_speech` in `src/tts/main.py`) -/

/-- `ALLOWED_MODEL_FAMILIES` from `main.py`. -/
def ALLOWED_MODEL_FAMILIES : List String := ["kokoro", "supertonic"]

/-- The pydantic `SpeechRequest` model of `main.py` after defaulting. -/
structure SpeechRequest where
  model : String
  input : String
  voice : String
  response_format : String
  speed : ℚ
deriving DecidableEq, Repr

/-- A request body with optional fields, before pydantic applies the
`Field(default=...)` values of `SpeechRequest`. -/
structure RawSpeechRequest where
  model : Option String
  input : String
  voice : Option String
  response_format : Option String
  speed : Option ℚ
deriving DecidableEq, Repr

/-- `DEFAULT_TTS_MODEL` resolution at module load in `main.py`: the
`TTS_DEFAULT_MODEL` environment value, defaulting to `"supertonic"`, and
silently replaced by `"kokoro"` when not in `ALLOWED_MODEL_FAMILIES`. -/
def resolveDefaultModel (env : Option String) : String :=
  let m := env.getD "supertonic"
  if ALLOWED_MODEL_FAMILIES.contains m then m else "kokoro"

/-- Pydantic defaulting for `SpeechRequest`: `model` defaults to the
resolved `DEFAULT_TTS_MODEL`, `voice` to the literal `"af_heart"`,
`response_format` to `"wav"`, `speed` to `1.0`. -/
def SpeechRequest.ofRaw (defaultModel : String) (raw : RawSpeechRequest) :
    SpeechRequest :=
  { model := raw.model.getD defaultModel
    input := raw.input
    voice := raw.voice.getD "af_heart"
    response_format := raw.response_format.getD "wav"
    speed := raw.speed.getD 1 }

/-- The mutable module-level registry state of `main.py`: the two engine
slots (`kokoro_model`, `supertonic_model`) plus, for each backend, how many
construction attempts have run (the spec's construction counter). -/
structure ServerState where
  kokoroSlot : Option Nat
  supertonicSlot : Option Nat
  kokoroAttempts : Nat
  supertonicAttempts : Nat
deriving DecidableEq, Repr

/-- Engine acquisition inside `text_to_speech`:
`await get_kokoro_model()` when `request.model == "kokoro"`, else
`await get_supertonic_model()`. -/
def acquireEngine (kCtor sCtor : Nat → Option Nat) (model : String)
    (st : ServerState) : Except Unit Nat × ServerState :=
  if model = "kokoro" then
    let r := getEngineSeq kCtor st.kokoroSlot st.kokoroAttempts
    (r.1, { st with kokoroSlot := r.2.1, kokoroAttempts := r.2.2 })
  else
    let r := getEngineSeq sCtor st.supertonicSlot st.supertonicAttempts
    (r.1, { st with supertonicSlot := r.2.1, supertonicAttempts := r.2.2 })

/-- Outcome of one `POST /v1/audio/speech` dispatch: HTTP status, whether
the backend synthesis call was reached, and the registry state after. -/
structure DispatchResult where
  status : Nat
  synthCalled : Bool
  state : ServerState
deriving DecidableEq, Repr

/-- `text_to_speech(request)` from `main.py`, with the two reads of
`shutdown_event.is_set()` exposed as `shutdownAtEntry` (the check at the
top of the handler) and `shutdownAtRecheck` (the re-check after model
initialization, just before synthesis): in order, the shutdown gate, model
validation, response-format validation, voice validation against the
static catalog, engine acquisition (500 on `InitializationFailure`), the
shutdown re-check, then the synthesis/encode/respond path (200). -/
def text_to_speech (kCtor sCtor : Nat → Option Nat)
    (shutdownAtEntry shutdownAtRecheck : Bool)
    (req : SpeechRequest) (st : ServerState) : DispatchResult :=
  if shutdownAtEntry then ⟨503, false, st⟩
  else if ¬ ALLOWED_MODEL_FAMILIES.contains req.model then ⟨400, false, st⟩
  else if req.response_format ≠ "wav" then ⟨400, false, st⟩
  else if ¬ is_valid_voice req.voice req.model then ⟨400, false, st⟩
  else
    match acquireEngine kCtor sCtor req.model st with
    | (.error _, st1) => ⟨500, false, st1⟩
    | (.ok _, st1) =>
      if shutdownAtRecheck then ⟨503, false, st1⟩
      else ⟨200, true, st1⟩

/-! ## Shutdown coordination (`shutdown_event` in `main.py`) -/

/-- Process-level events that run code touching `shutdown_event`:
`signal_handler` (SIGTERM/SIGINT) calls `shutdown_event.set()`, the
lifespan shutdown hook calls `shutdown_event.set()`, and request handling
only reads the flag. No call site ever clears the event. -/
inductive ProcEvent where
  | signal
  | lifespanEnd
  | requestArrival
deriving DecidableEq, Repr

/-- Effect of one process event on the `shutdown_event` flag. -/
def stepFlag (b : Bool) (e : ProcEvent) : Bool :=
  match e with
  | .signal => true
  | .lifespanEnd => true
  | .requestArrival => b

/-- The `shutdown_event` flag after a sequence of process events, starting
from the unset state at process start. -/
def shutdownAfter (evs : List ProcEvent) : Bool :=
  evs.foldl stepFlag false

/-- `shutdown_middleware` from `main.py`: the coarse gate in front of every
route; raises a 503 `HTTPException` when the flag is set, otherwise passes
the inner handler's status through. -/
def shutdown_middleware (flag : Bool) (innerStatus : Nat) : Nat :=
  if flag then 503 else innerStatus

/-- `HealthResponse` from `main.py`. -/
structure HealthResponse where
  status : String
  message : String
  version : String
deriving DecidableEq, Repr

/-- `health_check` from `main.py`: the `/health` handler body. -/
def health_check : HealthResponse :=
  ⟨"healthy", "TTS service is running", "1.0.0"⟩

/-- Full processing of `GET /health`: the shutdown middleware runs first
(it wraps every route), then the handler returns 200 with
`health_check`. -/
def processHealth (flag : Bool) : Nat × Option HealthResponse :=
  if flag then (503, none) else (200, some health_check)

/-! ## Audio encoder (`create_wav_from_audio` in `src/tts/main.py`) -/

/-- A numpy array of audio samples: a shape and the (C-contiguous) flat
data. Sample values are modelled exactly as rationals; the engines hand
`create_wav_from_audio` 32-bit-float buffers. -/
structure NDArr where
  shape : List Nat
  data : List ℚ
deriving DecidableEq, Repr

/-- C-style float→integer conversion: truncation toward zero. -/
def truncQ (q : ℚ) : ℤ :=
  q.num.tdiv (q.den : ℤ)

/-- numpy `astype(np.int16)` overflow behaviour on this path: the value is
wrapped modulo 2^16 into [-32768, 32767] (no clipping guard). -/
def wrap16 (z : ℤ) : ℤ :=
  (z + 32768).emod 65536 - 32768

/-- Two little-endian bytes of an `int16` sample (two's complement), as
`numpy.tobytes` writes them. -/
def le16 (z : ℤ) : List Nat :=
  [(z.emod 65536).toNat % 256, (z.emod 65536).toNat / 256]

/-- Two little-endian bytes of an unsigned 16-bit header field (`<H`). -/
def le16n (n : Nat) : List Nat :=
  [n % 256, n / 256 % 256]

/-- Four little-endian bytes of an unsigned 32-bit header field (`<L`). -/
def le32 (n : Nat) : List Nat :=
  [n % 256, n / 256 % 256, n / 65536 % 256, n / 16777216 % 256]

/-- The byte stream produced by Python's `wave` module for a mono,
16-bit-per-sample file at `sample_rate`: `RIFF`, chunk size `36 + data
length`, `WAVE`, the `fmt ` subchunk (PCM format tag 1, 1 channel,
frame rate, byte rate, block align 2, 16 bits per sample), then the
`data` subchunk. -/
def wavBytes (sample_rate : Nat) (pcm : List ℤ) : List Nat :=
  let dataLen := 2 * pcm.length
  [82, 73, 70, 70] ++ le32 (36 + dataLen)
    ++ [87, 65, 86, 69] ++ [102, 109, 116, 32] ++ le32 16
    ++ le16n 1 ++ le16n 1 ++ le32 sample_rate ++ le32 (sample_rate * 2)
    ++ le16n 2 ++ le16n 16
    ++ [100, 97, 116, 97] ++ le32 dataLen
    ++ pcm.flatMap le16

/-- `create_wav_from_audio(audio_data, sample_rate)` from `main.py`:
`np.squeeze(...).astype(np.float32)` (drop singleton axes; the engines
already produce float32 samples, so the value cast is the identity on the
modelled exact values), then `(audio * 32767).astype(np.int16)` (scale,
truncate toward zero, wrap modulo 2^16 — no clipping guard), then the
`wave`-module mono 16-bit container. A pure function: byte-identical
output for identical input by construction. -/
def create_wav_from_audio (audio_data : NDArr) (sample_rate : Nat) : List Nat :=
  let squeezed : NDArr := ⟨audio_data.shape.filter (fun d => d != 1), audio_data.data⟩
  let pcm : List ℤ := squeezed.data.map (fun x => wrap16 (truncQ (x * 32767)))
  wavBytes sample_rate pcm

/-- Spec step (1): flatten/squeeze any singleton dimensions. -/
def encodeStep1 (a : NDArr) : NDArr :=
  ⟨a.shape.filter (fun d => d != 1), a.data⟩

/-- Spec step (2): cast to 32-bit float (identity on float32 input). -/
def encodeStep2 (a : NDArr) : NDArr := a

/-- Spec step (3): multiply by 32767 and cast to signed 16-bit integer
with wraparound, no clipping guard. -/
def encodeStep3 (a : NDArr) : List ℤ :=
  a.data.map (fun x => wrap16 (truncQ (x * 32767)))

/-- Spec step (4): wrap in a single-channel 16-bit WAV container at the
given sample rate. -/
def encodeStep4 (rate : Nat) (pcm : List ℤ) : List Nat :=
  wavBytes rate pcm

/-! ## Model registry under concurrency (`get_kokoro_model` /
`get_supertonic_model` with `asyncio.Lock`).

One backend's slot/lock pair (the two backends use disjoint globals and
disjoint locks, so each is an instance of this system). Each of N
concurrent callers runs the double-checked locking protocol of
`get_kokoro_model`: unsynchronized fast-path check; acquire the backend
lock; re-check; construct and publish while holding the lock; release and
return. Under asyncio, code between awaits runs atomically, so each
protocol step is one atomic transition; the construct step publishes only
the fully built engine (the global is assigned after construction
completes). Engines are identified by the value of the construction
counter at the time they were built. -/

/-- Program counter of one caller inside `get_kokoro_model` /
`get_supertonic_model`. -/
inductive RegPC where
  | start
  | waitLock
  | locked
  | constructing
  | done (v : Nat)
deriving DecidableEq, Repr

/-- Shared state: the published slot (`kokoro_model` global), the lock
(`kokoro_model_lock`) with its holder, the construction counter, and each
caller's program counter. -/
structure RegSys (N : Nat) where
  slot : Option Nat
  lock : Option (Fin N)
  counter : Nat
  pc : Fin N → RegPC

/-- One atomic step of one caller. -/
inductive RegStep {N : Nat} : RegSys N → RegSys N → Prop where
  | fastHit (s : RegSys N) (i : Fin N) (v : Nat) :
      s.pc i = .start → s.slot = some v →
      RegStep s { s with pc := Function.update s.pc i (.done v) }
  | fastMiss (s : RegSys N) (i : Fin N) :
      s.pc i = .start → s.slot = none →
      RegStep s { s with pc := Function.update s.pc i .waitLock }
  | acquire (s : RegSys N) (i : Fin N) :
      s.pc i = .waitLock → s.lock = none →
      RegStep s { s with lock := some i, pc := Function.update s.pc i .locked }
  | recheckHit (s : RegSys N) (i : Fin N) (v : Nat) :
      s.pc i = .locked → s.slot = some v →
      RegStep s { s with lock := none, pc := Function.update s.pc i (.done v) }
  | recheckMiss (s : RegSys N) (i : Fin N) :
      s.pc i = .locked → s.slot = none →
      RegStep s { s with pc := Function.update s.pc i .constructing }
  | construct (s : RegSys N) (i : Fin N) :
      s.pc i = .constructing →
      RegStep s { slot := some s.counter, lock := none, counter := s.counter + 1,
                  pc := Function.update s.pc i (.done s.counter) }

/-- Initial state: empty slot, free lock, zero constructions, all N
callers about to run the fast-path check. -/
def regInit (N : Nat) : RegSys N :=
  { slot := none, lock := none, counter := 0, pc := fun _ => .start }

/-- States reachable from the initial state by any interleaving. -/
def RegReachable (N : Nat) (s : RegSys N) : Prop :=
  Relation.ReflTransGen RegStep (regInit N) s

/-- Inductive invariant of the double-checked locking protocol. -/
def RegInv {N : Nat} (s : RegSys N) : Prop :=
  s.counter ≤ 1
  ∧ (s.slot = none ↔ s.counter = 0)
  ∧ (∀ v, s.slot = some v → v = 0)
  ∧ (∀ i, s.pc i = .locked → s.lock = some i)
  ∧ (∀ i, s.pc i = .constructing → s.lock = some i ∧ s.slot = none)
  ∧ (∀ i v, s.pc i = .done v → s.slot = some v)

theorem regInv_init (N : Nat) : RegInv (regInit N) := by
  refine ⟨by simp [regInit], by simp [regInit], ?_, ?_, ?_, ?_⟩ <;>
    intro i <;> simp [regInit]

theorem regInv_step {N : Nat} {s t : RegSys N} (h : RegStep s t)
    (hs : RegInv s) : RegInv t := by
  obtain ⟨h1, h2, h3, h4, h5, h6⟩ := hs
  cases h with
  | fastHit i v hpc hslot =>
    refine ⟨h1, h2, h3, ?_, ?_, ?_⟩
    · intro j hj
      dsimp only at hj ⊢
      rcases eq_or_ne j i with rfl | hne
      · rw [Function.update_same] at hj; exact RegPC.noConfusion hj
      · rw [Function.update_noteq hne] at hj; exact h4 j hj
    · intro j hj
      dsimp only at hj ⊢
      rcases eq_or_ne j i with rfl | hne
      · rw [Function.update_same] at hj; exact RegPC.noConfusion hj
      · rw [Function.update_noteq hne] at hj; exact h5 j hj
    · intro j w hj
      dsimp only at hj ⊢
      rcases eq_or_ne j i with rfl | hne
      · rw [Function.update_same] at hj
        injection hj with hvw
        rw [← hvw]; exact hslot
      · rw [Function.update_noteq hne] at hj; exact h6 j w hj
  | fastMiss i hpc hslot =>
    refine ⟨h1, h2, h3, ?_, ?_, ?_⟩
    · intro j hj
      dsimp only at hj ⊢
      rcases eq_or_ne j i with rfl | hne
      · rw [Function.update_same] at hj; exact RegPC.noConfusion hj
      · rw [Function.update_noteq hne] at hj; exact h4 j hj
    · intro j hj
      dsimp only at hj ⊢
      rcases eq_or_ne j i with rfl | hne
      · rw [Function.update_same] at hj; exact RegPC.noConfusion hj
      · rw [Function.update_noteq hne] at hj; exact h5 j hj
    · intro j w hj
      dsimp only at hj ⊢
      rcases eq_or_ne j i with rfl | hne
      · rw [Function.update_same] at hj; exact RegPC.noConfusion hj
      · rw [Function.update_noteq hne] at hj; exact h6 j w hj
  | acquire i hpc hlock =>
    refine ⟨h1, h2, h3, ?_, ?_, ?_⟩
    · intro j hj
      dsimp only at hj ⊢
      rcases eq_or_ne j i with rfl | hne
      · rfl
      · rw [Function.update_noteq hne] at hj
        have hx := h4 j hj
        rw [hlock] at hx
        exact Option.noConfusion hx
    · intro j hj
      dsimp only at hj ⊢
      rcases eq_or_ne j i with rfl | hne
      · rw [Function.update_same] at hj; exact RegPC.noConfusion hj
      · rw [Function.update_noteq hne] at hj
        have hx := (h5 j hj).1
        rw [hlock] at hx
        exact Option.noConfusion hx
    · intro j w hj
      dsimp only at hj ⊢
      rcases eq_or_ne j i with rfl | hne
      · rw [Function.update_same] at hj; exact RegPC.noConfusion hj
      · rw [Function.update_noteq hne] at hj; exact h6 j w hj
  | recheckHit i v hpc hslot =>
    refine ⟨h1, h2, h3, ?_, ?_, ?_⟩
    · intro j hj
      dsimp only at hj ⊢
      rcases eq_or_ne j i with rfl | hne
      · rw [Function.update_same] at hj; exact RegPC.noConfusion hj
      · rw [Function.update_noteq hne] at hj
        have hji := h4 j hj
        rw [h4 i hpc] at hji
        injection hji with hij
        exact absurd hij.symm hne
    · intro j hj
      dsimp only at hj ⊢
      rcases eq_or_ne j i with rfl | hne
      · rw [Function.update_same] at hj; exact RegPC.noConfusion hj
      · rw [Function.update_noteq hne] at hj
        have hji := (h5 j hj).1
        rw [h4 i hpc] at hji
        injection hji with hij
        exact absurd hij.symm hne
    · intro j w hj
      dsimp only at hj ⊢
      rcases eq_or_ne j i with rfl | hne
      · rw [Function.update_same] at hj
        injection hj with hvw
        rw [← hvw]; exact hslot
      · rw [Function.update_noteq hne] at hj; exact h6 j w hj
  | recheckMiss i hpc hslot =>
    refine ⟨h1, h2, h3, ?_, ?_, ?_⟩
    · intro j hj
      dsimp only at hj ⊢
      rcases eq_or_ne j i with rfl | hne
      · rw [Function.update_same] at hj; exact RegPC.noConfusion hj
      · rw [Function.update_noteq hne] at hj; exact h4 j hj
    · intro j hj
      dsimp only at hj ⊢
      rcases eq_or_ne j i with rfl | hne
      · rw [Function.update_same] at hj
        exact ⟨h4 j hpc, hslot⟩
      · rw [Function.update_noteq hne] at hj; exact h5 j hj
    · intro j w hj
      dsimp only at hj ⊢
      rcases eq_or_ne j i with rfl | hne
      · rw [Function.update_same] at hj; exact RegPC.noConfusion hj
      · rw [Function.update_noteq hne] at hj; exact h6 j w hj
  | construct i hpc =>
    obtain ⟨hlk, hsl⟩ := h5 i hpc
    have hc0 : s.counter = 0 := h2.mp hsl
    refine ⟨?_, ?_, ?_, ?_, ?_, ?_⟩
    · dsimp only; omega
    · dsimp only
      constructor
      · intro hx; exact Option.noConfusion hx
      · intro hx; exact absurd hx (by omega)
    · dsimp only
      intro w hw
      injection hw with hw
      omega
    · intro j hj
      dsimp only at hj ⊢
      rcases eq_or_ne j i with rfl | hne
      · rw [Function.update_same] at hj; exact RegPC.noConfusion hj
      · rw [Function.update_noteq hne] at hj
        have hji := h4 j hj
        rw [hlk] at hji
        injection hji with hij
        exact absurd hij.symm hne
    · intro j hj
      dsimp only at hj ⊢
      rcases eq_or_ne j i with rfl | hne
      · rw [Function.update_same] at hj; exact RegPC.noConfusion hj
      · rw [Function.update_noteq hne] at hj
        have hji := (h5 j hj).1
        rw [hlk] at hji
        injection hji with hij
        exact absurd hij.symm hne
    · intro j w hj
      dsimp only at hj ⊢
      rcases eq_or_ne j i with rfl | hne
      · rw [Function.update_same] at hj
        injection hj with hvw
        rw [← hvw]
      · rw [Function.update_noteq hne] at hj
        have hx := h6 j w hj
        rw [hsl] at hx
        exact Option.noConfusion hx

theorem regReachable_inv {N : Nat} {s : RegSys N} (h : RegReachable N s) :
    RegInv s := by
  induction h with
  | refl => exact regInv_init N
  | tail _ hstep ih => exact regInv_step hstep ih

/-- C1: under any interleaving of N ≥ 2 concurrent callers of
`get_kokoro_model`/`get_supertonic_model` starting before any instance
exists, once every caller has returned, exactly one underlying
construction has occurred, and all callers returned the same, published,
fully-constructed instance (the slot only ever holds the value installed
by the single construct step). -/
theorem getEngine_concurrent_at_most_once (N : Nat) (s : RegSys N)
    (hN : 2 ≤ N) (hreach : RegReachable N s)
    (hdone : ∀ i : Fin N, ∃ v, s.pc i = RegPC.done v) :
    s.counter = 1 ∧
      ∀ i j : Fin N, ∀ vi vj : Nat,
        s.pc i = RegPC.done vi → s.pc j = RegPC.done vj →
          vi = vj ∧ s.slot = some vi := by
  obtain ⟨h1, h2, h3, h4, h5, h6⟩ := regReachable_inv hreach
  obtain ⟨v, hv⟩ := hdone ⟨0, by omega⟩
  have hslot := h6 _ v hv
  constructor
  · have hne : s.slot ≠ none := by
      rw [hslot]; exact fun hx => Option.noConfusion hx
    have hcne : s.counter ≠ 0 := fun hc => hne (h2.mpr hc)
    omega
  · intro i j vi vj hi hj
    have hsi := h6 i vi hi
    have hsj := h6 j vj hj
    rw [hsi] at hsj
    exact ⟨Option.some.inj hsj, hsi⟩

def c1s0 : RegSys 2 := regInit 2

def c1s1 : RegSys 2 := { c1s0 with pc := Function.update c1s0.pc 0 .waitLock }

def c1s2 : RegSys 2 :=
  { c1s1 with lock := some 0, pc := Function.update c1s1.pc 0 .locked }

def c1s3 : RegSys 2 :=
  { c1s2 with pc := Function.update c1s2.pc 0 .constructing }

def c1s4 : RegSys 2 :=
  { slot := some c1s3.counter, lock := none, counter := c1s3.counter + 1,
    pc := Function.update c1s3.pc 0 (.done c1s3.counter) }

def c1s5 : RegSys 2 := { c1s4 with pc := Function.update c1s4.pc 1 (.done 0) }

/-- Witness for C1: a concrete two-caller schedule (caller 0 misses the
fast path, locks, constructs and publishes; caller 1 then hits the fast
path) reaching a state where both callers are done. -/
theorem getEngine_concurrent_at_most_once_witness :
    c1s5.counter = 1 ∧
      ∀ i j : Fin 2, ∀ vi vj : Nat,
        c1s5.pc i = RegPC.done vi → c1s5.pc j = RegPC.done vj →
          vi = vj ∧ c1s5.slot = some vi := by
  apply getEngine_concurrent_at_most_once 2 c1s5 (by omega)
  · exact Relation.ReflTransGen.head (RegStep.fastMiss c1s0 0 rfl rfl)
      (Relation.ReflTransGen.head (RegStep.acquire c1s1 0 rfl rfl)
        (Relation.ReflTransGen.head (RegStep.recheckMiss c1s2 0 rfl rfl)
          (Relation.ReflTransGen.head (RegStep.construct c1s3 0 rfl)
            (Relation.ReflTransGen.head (RegStep.fastHit c1s4 1 0 rfl rfl)
              Relation.ReflTransGen.refl))))
  · intro i
    fin_cases i
    · exact ⟨0, rfl⟩
    · exact ⟨0, rfl⟩

/-- C2: a request whose voice is not in the catalog for its model is
rejected with 400 with the registry state unchanged — no construction is
attempted and synthesis is never reached (whatever the later shutdown
re-check would have read). -/
theorem invalid_voice_rejected_before_engine_construction
    (kCtor sCtor : Nat → Option Nat) (s2 : Bool)
    (req : SpeechRequest) (st : ServerState)
    (hv : is_valid_voice req.voice req.model = false) :
    text_to_speech kCtor sCtor false s2 req st =
      { status := 400, synthCalled := false, state := st } := by
  unfold text_to_speech
  rw [if_neg (by simp)]
  by_cases hm : ALLOWED_MODEL_FAMILIES.contains req.model
  · rw [if_neg (not_not_intro hm)]
    by_cases hf : req.response_format = "wav"
    · rw [if_neg (not_not_intro hf), if_pos (by simp [hv])]
    · rw [if_pos hf]
  · rw [if_pos hm]

/-- Witness for C2: voice "M1" is not a kokoro voice; the request is
rejected 400 and the registry slots and attempt counters are untouched. -/
theorem invalid_voice_rejected_before_engine_construction_witness :
    text_to_speech (fun _ => some 0) (fun _ => some 0) false false
        { model := "kokoro", input := "hi", voice := "M1",
          response_format := "wav", speed := 1 }
        { kokoroSlot := none, supertonicSlot := none,
          kokoroAttempts := 0, supertonicAttempts := 0 } =
      { status := 400, synthCalled := false,
        state := { kokoroSlot := none, supertonicSlot := none,
                   kokoroAttempts := 0, supertonicAttempts := 0 } } :=
  invalid_voice_rejected_before_engine_construction _ _ _ _ _ (by decide)

/-- C3 counterexample: a request that omits `voice` gets the fixed pydantic
default `"af_heart"` even when its backend is supertonic (whose
backend-specific default would be `"F1"`); that voice fails supertonic
voice validation, so the request is rejected 400 instead of passing
validation — refuting the claim that an omitted voice is resolved to the
backend-specific default and always validates. -/
theorem default_voice_omitted_supertonic_rejected :
    (SpeechRequest.ofRaw (resolveDefaultModel none)
        { model := none, input := "hello", voice := none,
          response_format := none, speed := none }).model = "supertonic"
    ∧ (SpeechRequest.ofRaw (resolveDefaultModel none)
        { model := none, input := "hello", voice := none,
          response_format := none, speed := none }).voice = "af_heart"
    ∧ get_default_voice "supertonic" = "F1"
    ∧ is_valid_voice "af_heart" "supertonic" = false
    ∧ text_to_speech (fun _ => some 0) (fun _ => some 0) false false
        (SpeechRequest.ofRaw (resolveDefaultModel none)
          { model := none, input := "hello", voice := none,
            response_format := none, speed := none })
        { kokoroSlot := none, supertonicSlot := none,
          kokoroAttempts := 0, supertonicAttempts := 0 } =
      { status := 400, synthCalled := false,
        state := { kokoroSlot := none, supertonicSlot := none,
                   kokoroAttempts := 0, supertonicAttempts := 0 } } := by
  exact ⟨rfl, rfl, rfl, by decide, by decide⟩

/-- C3 amended: an omitted voice defaults to the fixed literal
`"af_heart"` regardless of the request's backend (`get_default_voice`
exists in `voices.py` but is not consulted on this path), and that default
passes voice validation exactly when the model is `"kokoro"`. -/
theorem default_voice_fixed_af_heart (defaultModel : String)
    (raw : RawSpeechRequest) (h : raw.voice = none) :
    (SpeechRequest.ofRaw defaultModel raw).voice = "af_heart"
    ∧ ∀ m : String, (is_valid_voice "af_heart" m = true ↔ m = "kokoro") := by
  constructor
  · unfold SpeechRequest.ofRaw
    rw [h]
    rfl
  · intro m
    unfold is_valid_voice get_voice_names get_voices_by_model
    by_cases h1 : m = "supertonic"
    · subst h1
      constructor
      · intro hx; exact absurd hx (by decide)
      · intro hx; exact absurd hx (by decide)
    · by_cases h2 : m = "kokoro"
      · subst h2
        rw [if_neg (by decide), if_pos rfl]
        constructor
        · intro _; rfl
        · intro _; decide
      · rw [if_neg h1, if_neg h2]
        constructor
        · intro hx; exact absurd hx (by decide)
        · intro hx; exact absurd hx h2

/-- Witness for C3 amended: a raw supertonic request with `voice`
omitted. -/
theorem default_voice_fixed_af_heart_witness :
    (SpeechRequest.ofRaw "supertonic"
        { model := some "supertonic", input := "hello", voice := none,
          response_format := none, speed := none }).voice = "af_heart"
    ∧ ∀ m : String, (is_valid_voice "af_heart" m = true ↔ m = "kokoro") :=
  default_voice_fixed_af_heart "supertonic"
    { model := some "supertonic", input := "hello", voice := none,
      response_format := none, speed := none } rfl

theorem stepFlag_true (e : ProcEvent) : stepFlag true e = true := by
  cases e <;> rfl

theorem foldl_stepFlag_true (l : List ProcEvent) :
    l.foldl stepFlag true = true := by
  induction l with
  | nil => rfl
  | cons e t ih => rw [List.foldl_cons, stepFlag_true]; exact ih

/-- C4: once `shutdown_event` is set it stays set under every further
process event (no call site ever clears it), and while it is set every
`POST /v1/audio/speech` dispatch and every request through the coarse
middleware gate answers 503. -/
theorem shutdown_set_is_permanent_and_503
    (evs : List ProcEvent) (hset : shutdownAfter evs = true) :
    ∀ (more : List ProcEvent) (kCtor sCtor : Nat → Option Nat) (s2 : Bool)
      (req : SpeechRequest) (st : ServerState) (inner : Nat),
      shutdownAfter (evs ++ more) = true
      ∧ (text_to_speech kCtor sCtor (shutdownAfter (evs ++ more)) s2 req st).status
          = 503
      ∧ shutdown_middleware (shutdownAfter (evs ++ more)) inner = 503 := by
  intro more kCtor sCtor s2 req st inner
  have hmono : shutdownAfter (evs ++ more) = true := by
    unfold shutdownAfter at hset ⊢
    rw [List.foldl_append, hset]
    exact foldl_stepFlag_true more
  refine ⟨hmono, ?_, ?_⟩
  · rw [hmono]; rfl
  · rw [hmono]; rfl

/-- Witness for C4: a SIGTERM sets the flag; a later request still sees
503 from both the handler and the middleware gate. -/
theorem shutdown_set_is_permanent_and_503_witness :
    shutdownAfter ([ProcEvent.signal] ++ [ProcEvent.requestArrival]) = true
    ∧ (text_to_speech (fun _ => some 0) (fun _ => some 0)
        (shutdownAfter ([ProcEvent.signal] ++ [ProcEvent.requestArrival])) false
        { model := "kokoro", input := "hi", voice := "af_heart",
          response_format := "wav", speed := 1 }
        { kokoroSlot := none, supertonicSlot := none,
          kokoroAttempts := 0, supertonicAttempts := 0 }).status = 503
    ∧ shutdown_middleware
        (shutdownAfter ([ProcEvent.signal] ++ [ProcEvent.requestArrival])) 200
        = 503 :=
  shutdown_set_is_permanent_and_503 [ProcEvent.signal] rfl
    [ProcEvent.requestArrival] _ _ false _ _ 200

/-- C5 counterexample: after the shutdown flag is set, `GET /health` is
stopped by the coarse middleware gate with 503 and never returns 200 —
refuting "always 200 once the process is up, including after shutdown". -/
theorem health_after_shutdown_is_503 :
    processHealth true = (503, none) ∧ (processHealth true).1 ≠ 200 :=
  ⟨rfl, by decide⟩

/-- C5 amended: `GET /health` returns 200 with
`{status, message, version}` whenever the shutdown flag is not set; once
the flag is set the middleware gate rejects it with 503 like every other
route. -/
theorem health_returns_200_when_not_shutdown (flag : Bool)
    (h : flag = false) :
    processHealth flag =
      (200, some { status := "healthy", message := "TTS service is running",
                   version := "1.0.0" }) := by
  subst h; rfl

/-- Witness for C5 amended: the flag is unset. -/
theorem health_returns_200_when_not_shutdown_witness :
    processHealth false =
      (200, some { status := "healthy", message := "TTS service is running",
                   version := "1.0.0" }) :=
  health_returns_200_when_not_shutdown false rfl

/-- C6: a request that has already passed validation and acquired its
engine is still rejected 503 — without the synthesis call being reached —
when the shutdown flag is observed set at the re-check placed immediately
before synthesis. -/
theorem shutdown_recheck_blocks_synthesis
    (kCtor sCtor : Nat → Option Nat) (req : SpeechRequest) (st : ServerState)
    (e : Nat) (st1 : ServerState)
    (hm : ALLOWED_MODEL_FAMILIES.contains req.model = true)
    (hf : req.response_format = "wav")
    (hv : is_valid_voice req.voice req.model = true)
    (hacq : acquireEngine kCtor sCtor req.model st = (Except.ok e, st1)) :
    text_to_speech kCtor sCtor false true req st =
      { status := 503, synthCalled := false, state := st1 } := by
  unfold text_to_speech
  rw [if_neg (by simp), if_neg (not_not_intro hm), if_neg (not_not_intro hf),
    if_neg (by simp [hv]), hacq]
  rfl

/-- Witness for C6: a valid kokoro request whose engine is built, then the
shutdown flag flips before the synthesis call. -/
theorem shutdown_recheck_blocks_synthesis_witness :
    text_to_speech (fun _ => some 5) (fun _ => some 0) false true
        { model := "kokoro", input := "hi", voice := "af_heart",
          response_format := "wav", speed := 1 }
        { kokoroSlot := none, supertonicSlot := none,
          kokoroAttempts := 0, supertonicAttempts := 0 } =
      { status := 503, synthCalled := false,
        state := { kokoroSlot := some 5, supertonicSlot := none,
                   kokoroAttempts := 1, supertonicAttempts := 0 } } :=
  shutdown_recheck_blocks_synthesis (fun _ => some 5) (fun _ => some 0)
    { model := "kokoro", input := "hi", voice := "af_heart",
      response_format := "wav", speed := 1 }
    { kokoroSlot := none, supertonicSlot := none,
      kokoroAttempts := 0, supertonicAttempts := 0 }
    5
    { kokoroSlot := some 5, supertonicSlot := none,
      kokoroAttempts := 1, supertonicAttempts := 0 }
    (by decide) rfl (by decide) rfl

/-- C7: if the k-th construction attempt for a backend raises, the call
propagates the failure (`InitializationFailure`) and the registry slot
stays empty rather than caching the failure; the next call with the slot
still empty runs a fresh construction attempt, and succeeds if that
attempt succeeds. -/
theorem construction_failure_not_cached (ctor : Nat → Option Nat)
    (k : Nat) (e : Nat) (hk : ctor k = none) (hk1 : ctor (k + 1) = some e) :
    getEngineSeq ctor none k = (Except.error (), none, k + 1)
    ∧ getEngineSeq ctor none (k + 1) = (Except.ok e, some e, k + 2) := by
  constructor
  · unfold getEngineSeq; rw [hk]
  · unfold getEngineSeq; rw [hk1]

/-- Witness for C7: attempt 0 fails, attempt 1 succeeds with a fresh
engine. -/
theorem construction_failure_not_cached_witness :
    getEngineSeq (fun n => if n = 0 then none else some 7) none 0
        = (Except.error (), none, 1)
    ∧ getEngineSeq (fun n => if n = 0 then none else some 7) none 1
        = (Except.ok 7, some 7, 2) :=
  construction_failure_not_cached (fun n => if n = 0 then none else some 7)
    0 7 rfl rfl

/-- C8: `create_wav_from_audio` is exactly the composition, in order, of
the four spec steps — squeeze singleton dimensions, float32 cast, scale by
32767 with int16 cast (wraparound, no clipping guard), WAV wrapping —
its output starts with the `RIFF` marker of a WAV container, and an
out-of-range sample wraps instead of clamping (a sample of 2.0 encodes as
-2, a sample of -2.0 as 2, not ±32767). Determinism is inherent: the
encoder is a pure function of `(samples, sample_rate)`. -/
theorem create_wav_pipeline_steps (a : NDArr) (r : Nat) :
    create_wav_from_audio a r
        = encodeStep4 r (encodeStep3 (encodeStep2 (encodeStep1 a)))
      ∧ (create_wav_from_audio a r).take 4 = [82, 73, 70, 70]
      ∧ wrap16 (truncQ ((2 : ℚ) * 32767)) = -2
      ∧ wrap16 (truncQ ((-2 : ℚ) * 32767)) = 2 := by
  refine ⟨rfl, rfl, ?_, ?_⟩
  · rw [show ((2 : ℚ) * 32767) = 65534 from by norm_num]
    decide
  · rw [show ((-2 : ℚ) * 32767) = -65534 from by norm_num]
    decide

/-- C9: the supertonic adapter's `get_voice_style` raises its
`UnknownVoice` error (`ValueError`) precisely for voice names outside its
own fixed `VOICE_LIST`, independent of the HTTP-layer catalog and of the
filesystem/loader oracles and cache contents; names in the list never
produce `UnknownVoice` (though they may fail differently). -/
theorem get_voice_style_unknown_voice_iff
    (hasFile : String → Bool) (loadStyle : String → Option Nat)
    (cache : List (String × Nat)) (v : String) :
    (get_voice_style hasFile loadStyle cache v
        = Except.error StyleErr.UnknownVoice)
      ↔ VOICE_LIST.contains v = false := by
  unfold get_voice_style
  by_cases h : VOICE_LIST.contains v
  · rw [if_neg (not_not_intro h)]
    constructor
    · intro he
      exfalso
      cases hl : cache.lookup v with
      | some s => rw [hl] at he; exact Except.noConfusion he
      | none =>
        rw [hl] at he
        by_cases hfl : hasFile v
        · rw [if_neg (not_not_intro hfl)] at he
          cases hls : loadStyle v with
          | some s => rw [hls] at he; exact Except.noConfusion he
          | none =>
            rw [hls] at he
            injection he with he2
            exact StyleErr.noConfusion he2
        · rw [if_pos hfl] at he
          injection he with he2
          exact StyleErr.noConfusion he2
    · intro hc
      rw [h] at hc
      exact Bool.noConfusion hc
  · rw [if_pos h]
    have hfalse : VOICE_LIST.contains v = false := by
      simpa using h
    constructor
    · intro _; exact hfalse
    · intro _; rfl

/-- C10: for any model string other than "kokoro" and "supertonic",
`get_voices_by_model` returns the empty list and `is_valid_voice` rejects
every voice name; both are total functions of their string inputs, so
neither can raise. -/
theorem unknown_model_empty_catalog (m : String)
    (h1 : m ≠ "kokoro") (h2 : m ≠ "supertonic") :
    get_voices_by_model m = [] ∧ ∀ v : String, is_valid_voice v m = false := by
  have hg : get_voices_by_model m = [] := by
    unfold get_voices_by_model
    rw [if_neg h2, if_neg h1]
  refine ⟨hg, fun v => ?_⟩
  unfold is_valid_voice get_voice_names
  rw [hg]
  rfl

/-- Witness for C10: the model string "bogus". -/
theorem unknown_model_empty_catalog_witness :
    get_voices_by_model "bogus" = []
    ∧ ∀ v : String, is_valid_voice v "bogus" = false :=
  unknown_model_empty_catalog "bogus" (by decide) (by decide)
